import Mathlib

set_option maxRecDepth 4000

/-!
Shallow embedding of the Torc phase-execution core of the poiesis repository:

* src/poiesis/core/services/torc/torc_execution_template.py
  (class TorcExecutionTemplate: execute, create_job, wait, log)
* src/poiesis/core/services/torc/torc_texam_execution.py
  (class TorcTexamExecution: start_job)

Kubernetes client model objects (V1Job, V1JobSpec, V1PodSpec, V1Container,
security contexts, ...) are embedded as Lean structures carrying exactly the
fields the source sets.  Collaborators outside src/ (the Kubernetes adapter,
the Redis message broker, the Mongo client, and the env-group helpers from
poiesis.core.constants) are modelled as explicit parameters: the scheduler
call as an Except result, the subscription as a list of optional messages,
and the database and logger calls as an emitted effect trace.
-/

/-- Embedding of Python's built-in int(s) on a string argument: strips
surrounding whitespace, then accepts an optional sign followed by a nonempty
digit sequence in which single underscores may separate digits.  Returns
none where Python raises ValueError. -/
def pyDigits (acc : Nat) : List Char → Option Nat
  | [] => some acc
  | '_' :: c :: rest =>
      if c.isDigit then pyDigits (acc * 10 + (c.toNat - 48)) rest else none
  | c :: rest =>
      if c.isDigit then pyDigits (acc * 10 + (c.toNat - 48)) rest else none

def pyDigitsStart : List Char → Option Nat
  | [] => none
  | c :: rest => if c.isDigit then pyDigits (c.toNat - 48) rest else none

/-- Surrounding-whitespace strip, as int() applies before parsing. -/
def pyStrip (cs : List Char) : List Char :=
  ((cs.dropWhile Char.isWhitespace).reverse.dropWhile Char.isWhitespace).reverse

def pyIntOfString (s : String) : Option Int :=
  match pyStrip s.toList with
  | '+' :: rest => (pyDigitsStart rest).map (fun n => (n : Int))
  | '-' :: rest => (pyDigitsStart rest).map (fun n => -(n : Int))
  | cs => (pyDigitsStart cs).map (fun n => (n : Int))

/-! Kubernetes client model objects, restricted to the fields the source
constructs.  Field names follow the Python client's keyword arguments. -/

structure V1ConfigMapKeySelector where
  name : String
  key : String
  optional : Option Bool := none
deriving DecidableEq, Repr

structure V1EnvVarSource where
  config_map_key_ref : Option V1ConfigMapKeySelector := none
deriving DecidableEq, Repr

structure V1EnvVar where
  name : String
  value : Option String := none
  value_from : Option V1EnvVarSource := none
deriving DecidableEq, Repr

structure V1SeccompProfile where
  type : String
deriving DecidableEq, Repr

structure V1Capabilities where
  drop : Option (List String) := none
deriving DecidableEq, Repr

structure V1SecurityContext where
  fs_group_change_policy : Option String := none
  run_as_non_root : Option Bool := none
  seccomp_profile : Option V1SeccompProfile := none
  run_as_user : Option Int := none
  allow_privilege_escalation : Option Bool := none
  capabilities : Option V1Capabilities := none
deriving DecidableEq, Repr

structure V1VolumeMount where
  name : String
  mount_path : String
deriving DecidableEq, Repr

structure V1PersistentVolumeClaimVolumeSource where
  claim_name : String
deriving DecidableEq, Repr

structure V1Volume where
  name : String
  persistent_volume_claim : Option V1PersistentVolumeClaimVolumeSource := none
deriving DecidableEq, Repr

structure V1Container where
  name : String
  image : String
  command : List String
  args : List String
  env : List V1EnvVar
  security_context : Option V1SecurityContext := none
  volume_mounts : List V1VolumeMount := []
  image_pull_policy : Option String := none
deriving DecidableEq, Repr

structure V1PodSpec where
  security_context : Option V1SecurityContext := none
  service_account_name : Option String := none
  containers : List V1Container
  volumes : List V1Volume := []
  restart_policy : Option String := none
deriving DecidableEq, Repr

structure V1PodTemplateSpec where
  spec : V1PodSpec
deriving DecidableEq, Repr

structure V1JobSpec where
  backoff_limit : Option Int := none
  template : V1PodTemplateSpec
  ttl_seconds_after_finished : Option Int := none
deriving DecidableEq, Repr

/-- Labels are kept as an association list in the source's insertion order. -/
structure V1ObjectMeta where
  name : Option String := none
  labels : List (String × String) := []
deriving DecidableEq, Repr

structure V1Job where
  api_version : String
  kind : String
  metadata : V1ObjectMeta
  spec : V1JobSpec
deriving DecidableEq, Repr

/-- Configuration constants read through
get_poiesis_core_constants().K8s in the source.  JOB_TTL is optional text
(absent environment variable modelled as none).  Fields whose Python names
end in a word the development cannot use verbatim are renamed with a Pref
suffix (PVC_PREFIX to pvcPref, TEXAM_PREFIX to texamPref, TORC_PREFIX to
torcPref, TIF_PREFIX to tifPref). -/
structure K8sConstants where
  JOB_TTL : Option String
  BACKOFF_LIMIT : String
  POIESIS_IMAGE : String
  CONFIGMAP_NAME : String
  COMMON_PVC_VOLUME_NAME : String
  FILER_PVC_PATH : String
  pvcPref : String
  RESTART_POLICY : String
  IMAGE_PULL_POLICY : String
  texamPref : String
  torcPref : String
  tifPref : String
  SERVICE_ACCOUNT_NAME : String
deriving DecidableEq, Repr

/-- The configuration surface the two source files consume: the K8s constant
block plus the five env-var groups returned by get_message_broker_envs,
get_mongo_envs, get_s3_envs, get_secret_names and get_configmap_names, which
live outside src/ and are therefore opaque lists here. -/
structure CoreEnv where
  K8s : K8sConstants
  message_broker_envs : List V1EnvVar
  mongo_envs : List V1EnvVar
  s3_envs : List V1EnvVar
  secret_names : List V1EnvVar
  configmap_names : List V1EnvVar
deriving DecidableEq, Repr

/-- Message statuses carried on the completion channel
(poiesis.core.ports.message_broker.MessageStatus). -/
inductive MessageStatus where
  | OK
  | ERROR
deriving DecidableEq, Repr

/-- A completion-channel payload (poiesis.core.ports.message_broker.Message). -/
structure Message where
  status : MessageStatus
  message : String
deriving DecidableEq, Repr

/-- Python exceptions the embedded code raises or propagates. -/
inductive PyExc where
  | valueError
  | apiException (msg : String)
  | attributeError (msg : String)
  | runtimeError (msg : String)
deriving DecidableEq, Repr

/-- Observable side effects of the embedded code, in emission order: logger
calls, the Kubernetes job-creation call, and the two MongoDB task-store
mutations add_tes_task_system_logs and add_tes_task_log_end_time. -/
inductive Effect where
  | logWarning (text : String)
  | logError (text : String)
  | logInfo (text : String)
  | logDebug
  | submitJob (job : V1Job)
  | dbAddSystemLogs (id : String) (logs : List String)
  | dbAddLogEndTime (id : String)
deriving DecidableEq, Repr

/-- The mutable state of a TorcExecutionTemplate instance that the template
methods touch: the id attribute (present only on variants that set it, hence
optional, mirroring the hasattr checks) and the received message. -/
structure TorcState where
  id : Option String
  message : Option Message
deriving DecidableEq, Repr

/-- Warning text emitted when the configured JOB_TTL does not parse, from the
f-string in both create_job and start_job. -/
def ttlWarningText (s : String) : String :=
  "Invalid JOB_TTL " ++ s ++ ", falling back to no TTL (None)."

/-- Embedding of the shared TTL resolution in create_job and start_job:
ttl = int(JOB_TTL) if JOB_TTL else None, wrapped in try/except
(ValueError, TypeError) which logs a warning and falls back to None.
An absent or empty (falsy) JOB_TTL takes the conditional's else branch, so
no exception is raised and no warning is emitted.  Returns the resolved TTL
together with the warning text when one is logged. -/
def resolveTtl : Option String → Option Int × Option String
  | none => (none, none)
  | some s =>
      if s = "" then (none, none)
      else
        match pyIntOfString s with
        | some n => (some n, none)
        | none => (none, some (ttlWarningText s))

/-- The warning effects of the shared TTL-resolution try/except: one
logger.warning call when the resolution warned, none otherwise. -/
def ttlWarnEffects (jobTtl : Option String) : List Effect :=
  match (resolveTtl jobTtl).2 with
  | some t => [Effect.logWarning t]
  | none => []

namespace TorcExecutionTemplate

/-- The V1Job value create_job builds for the TIF and TOF filer jobs
(torc_execution_template.py lines 102-172), with the backoff limit and TTL
already resolved. -/
def filerJobManifest (c : CoreEnv) (backoff : Int) (ttl : Option Int)
    (task_id job_name : String) (commands args : List String)
    (metadata : V1ObjectMeta) : V1Job :=
  { api_version := "batch/v1"
    kind := "Job"
    metadata := metadata
    spec :=
    { backoff_limit := some backoff
      template :=
      { spec :=
        { security_context := some
            { fs_group_change_policy := some "OnRootMismatch"
              run_as_non_root := some true
              seccomp_profile := some { type := "RuntimeDefault" } }
          containers :=
          [ { name := job_name
              image := c.K8s.POIESIS_IMAGE
              command := commands
              args := args
              env := c.message_broker_envs ++ c.mongo_envs ++ c.s3_envs
                  ++ c.secret_names ++ c.configmap_names
                  ++ [ { name := "POIESIS_IMAGE"
                         value := some c.K8s.POIESIS_IMAGE },
                       { name := "LOG_LEVEL"
                         value_from := some
                           { config_map_key_ref :=
                               some { name := c.K8s.CONFIGMAP_NAME, key := "LOG_LEVEL" } } } ]
              security_context := some
                { run_as_user := some 1000
                  allow_privilege_escalation := some false
                  capabilities := some { drop := some ["ALL"] } }
              volume_mounts :=
              [ { name := c.K8s.COMMON_PVC_VOLUME_NAME
                  mount_path := c.K8s.FILER_PVC_PATH } ]
              image_pull_policy := some c.K8s.IMAGE_PULL_POLICY } ]
          volumes :=
          [ { name := c.K8s.COMMON_PVC_VOLUME_NAME
              persistent_volume_claim := some
                { claim_name := c.K8s.pvcPref ++ "-" ++ task_id } } ]
          restart_policy := some c.K8s.RESTART_POLICY } }
      ttl_seconds_after_finished := ttl } }

/-- Embedding of TorcExecutionTemplate.create_job.  The Kubernetes adapter's
create_job call is modelled by apiResult: ok means the API accepted the job,
error m means it raised ApiException(m).  Returns the effect trace in
emission order and the Python-level outcome; an unparseable BACKOFF_LIMIT
raises ValueError during manifest construction, as in the source. -/
def create_job (c : CoreEnv) (apiResult : Except String Unit)
    (task_id job_name : String) (commands args : List String)
    (metadata : V1ObjectMeta) : List Effect × Except PyExc Unit :=
  let warnEffs := ttlWarnEffects c.K8s.JOB_TTL
  match pyIntOfString c.K8s.BACKOFF_LIMIT with
  | none => (warnEffs, Except.error PyExc.valueError)
  | some b =>
      let job := filerJobManifest c b (resolveTtl c.K8s.JOB_TTL).1
        task_id job_name commands args metadata
      match apiResult with
      | Except.ok _ =>
          (warnEffs ++ [Effect.logDebug, Effect.submitJob job], Except.ok ())
      | Except.error m =>
          (warnEffs ++ [Effect.logDebug, Effect.submitJob job, Effect.logError m],
           Except.error (PyExc.apiException m))

/-- Embedding of the for-loop body of TorcExecutionTemplate.wait: iterate the
subscription, skip falsy items, and on the first message log its text when
its status is ERROR, store it on the instance and break.  Returns the
effects, the updated state and the unconsumed remainder of the stream. -/
def waitLoop (st : TorcState) :
    List (Option Message) → List Effect × TorcState × List (Option Message)
  | [] => ([], st, [])
  | none :: rest => waitLoop st rest
  | some m :: rest =>
      ((if m.status = MessageStatus.ERROR then [Effect.logError m.message] else []),
       { st with message := some m }, rest)

/-- Embedding of TorcExecutionTemplate.wait: raises AttributeError before any
subscription when the id attribute is unset, else runs the subscription
loop.  The subscription for self.id is modelled by the stream argument. -/
def wait (st : TorcState) (stream : List (Option Message)) :
    List Effect × TorcState × List (Option Message) × Except PyExc Unit :=
  match st.id with
  | none =>
      ([], st, stream,
       Except.error (PyExc.attributeError "The id of the task is not set."))
  | some _ =>
      let r := waitLoop st stream
      (r.1, r.2.1, r.2.2, Except.ok ())

/-- Embedding of TorcExecutionTemplate.log: AttributeError when id is unset;
otherwise, when a message was received, on ERROR log the text, append it as
a task system log, append the task log end time and raise RuntimeError; on
any other status log the text at info level. -/
def log (st : TorcState) : List Effect × Except PyExc Unit :=
  match st.id with
  | none =>
      ([], Except.error (PyExc.attributeError "The id of the task is not set."))
  | some i =>
      match st.message with
      | none => ([], Except.ok ())
      | some m =>
          match m.status with
          | MessageStatus.ERROR =>
              ([Effect.logError m.message,
                Effect.dbAddSystemLogs i [m.message],
                Effect.dbAddLogEndTime i],
               Except.error (PyExc.runtimeError
                 "Exiting due to error condition in asynchronous function."))
          | MessageStatus.OK => ([Effect.logInfo m.message], Except.ok ())

/-- Embedding of TorcExecutionTemplate.execute: await start_job, then wait,
then await log — strictly in that order, with a raised exception at any step
propagating and preventing all later steps.  The variant's start_job hook is
the startJobStep parameter. -/
def execute (st : TorcState)
    (startJobStep : TorcState → List Effect × TorcState × Except PyExc Unit)
    (stream : List (Option Message)) :
    List Effect × TorcState × Except PyExc Unit :=
  let s1 := startJobStep st
  match s1.2.2 with
  | Except.error e => (s1.1, s1.2.1, Except.error e)
  | Except.ok _ =>
      let s2 := wait s1.2.1 stream
      match s2.2.2.2 with
      | Except.error e => (s1.1 ++ s2.1, s2.2.1, Except.error e)
      | Except.ok _ =>
          let s3 := log s2.2.1
          (s1.1 ++ s2.1 ++ s3.1, s2.2.1, s3.2)

end TorcExecutionTemplate

namespace TorcTexamExecution

/-- The V1Job value TorcTexamExecution.start_job builds
(torc_texam_execution.py lines 86-206), with the TTL already resolved and
the serialized task json.dumps(self.task.model_dump()) passed as taskJson.
Its V1JobSpec sets template and ttl_seconds_after_finished only, so
backoff_limit stays at the client default none, and the single container is
named with the TIF role constant. -/
def texamJobManifest (c : CoreEnv) (id taskJson : String) (ttl : Option Int) :
    V1Job :=
  { api_version := "batch/v1"
    kind := "Job"
    metadata :=
    { name := some (c.K8s.texamPref ++ "-" ++ id)
      labels :=
      [ ("service", c.K8s.texamPref),
        ("parent", c.K8s.torcPref ++ "-" ++ id),
        ("name", c.K8s.texamPref ++ "-" ++ id) ] }
    spec :=
    { template :=
      { spec :=
        { security_context := some
            { fs_group_change_policy := some "OnRootMismatch"
              run_as_non_root := some true
              seccomp_profile := some { type := "RuntimeDefault" } }
          service_account_name := some c.K8s.SERVICE_ACCOUNT_NAME
          containers :=
          [ { name := c.K8s.tifPref
              image := c.K8s.POIESIS_IMAGE
              command := ["poiesis", "texam", "run"]
              args := ["--task", taskJson]
              image_pull_policy := some c.K8s.IMAGE_PULL_POLICY
              env := c.mongo_envs ++ c.message_broker_envs
                  ++ c.secret_names ++ c.configmap_names
                  ++ [ { name := "POIESIS_IMAGE"
                         value := some c.K8s.POIESIS_IMAGE },
                       { name := "LOG_LEVEL"
                         value_from := some
                           { config_map_key_ref :=
                               some { name := c.K8s.CONFIGMAP_NAME, key := "LOG_LEVEL" } } },
                       { name := "MONITOR_TIMEOUT_SECONDS"
                         value_from := some
                           { config_map_key_ref :=
                               some { name := c.K8s.CONFIGMAP_NAME, key := "MONITOR_TIMEOUT_SECONDS", optional := some true } } },
                       { name := "POIESIS_K8S_NAMESPACE"
                         value_from := some
                           { config_map_key_ref :=
                               some { name := c.K8s.CONFIGMAP_NAME, key := "POIESIS_K8S_NAMESPACE" } } },
                       { name := "POIESIS_SERVICE_ACCOUNT_NAME"
                         value_from := some
                           { config_map_key_ref :=
                               some { name := c.K8s.CONFIGMAP_NAME, key := "POIESIS_SERVICE_ACCOUNT_NAME" } } },
                       { name := "POIESIS_RESTART_POLICY"
                         value_from := some
                           { config_map_key_ref :=
                               some { name := c.K8s.CONFIGMAP_NAME, key := "POIESIS_RESTART_POLICY" } } },
                       { name := "POIESIS_IMAGE_PULL_POLICY"
                         value_from := some
                           { config_map_key_ref :=
                               some { name := c.K8s.CONFIGMAP_NAME, key := "POIESIS_IMAGE_PULL_POLICY" } } },
                       { name := "POIESIS_JOB_TTL"
                         value_from := some
                           { config_map_key_ref :=
                               some { name := c.K8s.CONFIGMAP_NAME, key := "POIESIS_JOB_TTL" } } } ]
              security_context := some
                { run_as_user := some 1000
                  allow_privilege_escalation := some false
                  capabilities := some { drop := some ["ALL"] } } } ]
          restart_policy := some c.K8s.RESTART_POLICY } }
      ttl_seconds_after_finished := ttl } }

/-- Embedding of TorcTexamExecution.start_job: resolve the TTL (warning on
unparseable non-falsy JOB_TTL), build the Texam job manifest, log it at
debug level and submit it; an ApiException from the Kubernetes adapter is
logged and re-raised.  The adapter call is modelled by apiResult and
self.id by the id argument. -/
def start_job (c : CoreEnv) (apiResult : Except String Unit)
    (id taskJson : String) : List Effect × Except PyExc Unit :=
  let warnEffs := ttlWarnEffects c.K8s.JOB_TTL
  let job := texamJobManifest c id taskJson (resolveTtl c.K8s.JOB_TTL).1
  match apiResult with
  | Except.ok _ =>
      (warnEffs ++ [Effect.logDebug, Effect.submitJob job], Except.ok ())
  | Except.error m =>
      (warnEffs ++ [Effect.logDebug, Effect.submitJob job, Effect.logError m],
       Except.error (PyExc.apiException m))

end TorcTexamExecution

/-! Helper predicates over effect traces, and concrete sample configurations
used by closed evaluations. -/

def isWarningEffect : Effect → Bool
  | Effect.logWarning _ => true
  | _ => false

/-- Whether an effect trace contains a logger.warning call. -/
def hasWarning (l : List Effect) : Bool := l.any isWarningEffect

def isDbEffect : Effect → Bool
  | Effect.dbAddSystemLogs _ _ => true
  | Effect.dbAddLogEndTime _ => true
  | _ => false

/-- Whether an effect trace contains a durable task-store mutation. -/
def hasDbEffect (l : List Effect) : Bool := l.any isDbEffect

def submitted : Effect → Option V1Job
  | Effect.submitJob j => some j
  | _ => none

/-- The jobs an effect trace submits to the Kubernetes adapter, in order. -/
def submittedJobs (l : List Effect) : List V1Job := l.filterMap submitted

/-- A concrete configuration block for closed evaluations. -/
def sampleK8s : K8sConstants :=
  { JOB_TTL := some "120"
    BACKOFF_LIMIT := "3"
    POIESIS_IMAGE := "poiesis:latest"
    CONFIGMAP_NAME := "poiesis-configmap"
    COMMON_PVC_VOLUME_NAME := "poiesis-common-pvc"
    FILER_PVC_PATH := "/transfer"
    pvcPref := "poiesis-pvc"
    RESTART_POLICY := "Never"
    IMAGE_PULL_POLICY := "IfNotPresent"
    texamPref := "poiesis-texam"
    torcPref := "poiesis-torc"
    tifPref := "poiesis-tif"
    SERVICE_ACCOUNT_NAME := "poiesis-sa" }

/-- A concrete configuration surface with empty env-var groups. -/
def sampleEnv : CoreEnv :=
  { K8s := sampleK8s
    message_broker_envs := []
    mongo_envs := []
    s3_envs := []
    secret_names := []
    configmap_names := [] }

/-- sampleEnv with an empty-string JOB_TTL (set but falsy). -/
def emptyTtlEnv : CoreEnv := { sampleEnv with K8s := { sampleK8s with JOB_TTL := some "" } }

/-- sampleEnv with a non-empty, non-numeric JOB_TTL. -/
def badTtlEnv : CoreEnv := { sampleEnv with K8s := { sampleK8s with JOB_TTL := some "abc" } }

/-- A concrete start_job hook that raises (used to instantiate the template
sequencing theorem at a concrete input). -/
def sampleFailingStep (s : TorcState) : List Effect × TorcState × Except PyExc Unit :=
  ([Effect.logDebug], s, Except.error (PyExc.apiException "boom"))

/-! Named projections used in theorem statements. -/

def podSecCtx (j : V1Job) : Option V1SecurityContext :=
  j.spec.template.spec.security_context

def containerSecCtxs (j : V1Job) : List (Option V1SecurityContext) :=
  j.spec.template.spec.containers.map (fun ct => ct.security_context)

def containerNames (j : V1Job) : List String :=
  j.spec.template.spec.containers.map (fun ct => ct.name)

def jobTtlField (j : V1Job) : Option Int :=
  j.spec.ttl_seconds_after_finished

def jobBackoffRestart (j : V1Job) : Option Int × Option String :=
  (j.spec.backoff_limit, j.spec.template.spec.restart_policy)

/-- Stated from the spec for comparison: the fixed hardened pod-level
security posture (fs-group change policy OnRootMismatch, run-as-non-root,
RuntimeDefault seccomp profile). -/
def hardenedPodContext : V1SecurityContext :=
  { fs_group_change_policy := some "OnRootMismatch"
    run_as_non_root := some true
    seccomp_profile := some { type := "RuntimeDefault" } }

/-- Stated from the spec for comparison: the fixed hardened container-level
security posture (run as user 1000, no privilege escalation, all
capabilities dropped). -/
def hardenedContainerContext : V1SecurityContext :=
  { run_as_user := some 1000
    allow_privilege_escalation := some false
    capabilities := some { drop := some ["ALL"] } }

/-- Claim C1: every job built and submitted by the core — the filer jobs
from create_job and the Texam job from the task-execution start_job —
carries exactly the fixed hardened security posture: pod-level fs-group
change policy OnRootMismatch, run-as-non-root true, seccomp profile
RuntimeDefault; container-level run-as-user 1000, privilege escalation
disallowed, all capabilities dropped. -/
theorem c1_hardened_security_posture (c : CoreEnv) (b : Int) (ttl : Option Int)
    (task_id job_name id taskJson : String) (commands args : List String)
    (metadata : V1ObjectMeta) :
    podSecCtx (TorcExecutionTemplate.filerJobManifest c b ttl task_id job_name
        commands args metadata) = some hardenedPodContext ∧
    containerSecCtxs (TorcExecutionTemplate.filerJobManifest c b ttl task_id job_name
        commands args metadata) = [some hardenedContainerContext] ∧
    podSecCtx (TorcTexamExecution.texamJobManifest c id taskJson ttl)
      = some hardenedPodContext ∧
    containerSecCtxs (TorcTexamExecution.texamJobManifest c id taskJson ttl)
      = [some hardenedContainerContext] :=
  ⟨rfl, rfl, rfl, rfl⟩

/-- Claim C2: when the template's log step runs with a received
CompletionMessage of status ERROR carrying text m, it appends m as a system
log entry for the task, then sets the task's end time, then raises a fatal
RuntimeError — in exactly that order, with the raise only after both store
mutations (the trace equality fixes the order, and the raised error is the
step's final outcome). -/
theorem c2_error_logging_order (i m : String) :
    TorcExecutionTemplate.log
        { id := some i, message := some { status := MessageStatus.ERROR, message := m } }
      = ([Effect.logError m, Effect.dbAddSystemLogs i [m], Effect.dbAddLogEndTime i],
         Except.error (PyExc.runtimeError
           "Exiting due to error condition in asynchronous function.")) :=
  rfl

theorem waitLoop_replicate_none (st : TorcState) (m : Message)
    (rest : List (Option Message)) :
    ∀ k : Nat, TorcExecutionTemplate.waitLoop st (List.replicate k none ++ some m :: rest)
      = ((if m.status = MessageStatus.ERROR then [Effect.logError m.message] else []),
         { st with message := some m }, rest) := by
  intro k
  induction k with
  | zero => simp [TorcExecutionTemplate.waitLoop]
  | succ n ih => simpa [List.replicate_succ, TorcExecutionTemplate.waitLoop] using ih

/-- Claim C5: the wait step consumes at most one message per invocation —
on a subscription stream that yields k empty items and then a message m, it
accepts m, records it as the invocation's message, leaves the remainder of
the stream unconsumed, and logs m's text immediately at receipt exactly
when m's status is ERROR. -/
theorem c5_wait_single_message (i : String) (msg0 : Option Message) (k : Nat)
    (m : Message) (rest : List (Option Message)) :
    TorcExecutionTemplate.wait { id := some i, message := msg0 }
        (List.replicate k none ++ some m :: rest)
      = ((if m.status = MessageStatus.ERROR then [Effect.logError m.message] else []),
         { id := some i, message := some m }, rest, Except.ok ()) := by
  simp [TorcExecutionTemplate.wait, waitLoop_replicate_none]

/-- Whether the variant state carries a received message of ERROR status. -/
def receivedErrorStatus : TorcState → Bool
  | { id := _, message := some m } => m.status == MessageStatus.ERROR
  | _ => false

/-- Claim C6: when the received CompletionMessage has status OK, the
logging step emits an informational trace only — no system-log append, no
end-time write — and raises nothing; and whenever the log step mutates the
task store at all, the received message had status ERROR. -/
theorem c6_ok_no_store_mutation :
    (∀ i m : String,
      TorcExecutionTemplate.log
          { id := some i, message := some { status := MessageStatus.OK, message := m } }
        = ([Effect.logInfo m], Except.ok ())) ∧
    (∀ st : TorcState, receivedErrorStatus st = false →
      hasDbEffect (TorcExecutionTemplate.log st).1 = false) := by
  constructor
  · intro i m; rfl
  · intro st h
    obtain ⟨idOpt, msgOpt⟩ := st
    cases idOpt with
    | none => rfl
    | some i =>
      cases msgOpt with
      | none => rfl
      | some m =>
        obtain ⟨status, text⟩ := m
        cases status with
        | OK => rfl
        | ERROR => simp [receivedErrorStatus] at h

theorem c6_witness :
    TorcExecutionTemplate.log
        { id := some "task-1", message := some { status := MessageStatus.OK, message := "done" } }
      = ([Effect.logInfo "done"], Except.ok ()) ∧
    hasDbEffect (TorcExecutionTemplate.log
        { id := some "task-1", message := some { status := MessageStatus.OK, message := "done" } }).1
      = false :=
  ⟨c6_ok_no_store_mutation.1 "task-1" "done",
   c6_ok_no_store_mutation.2
     { id := some "task-1", message := some { status := MessageStatus.OK, message := "done" } }
     (by decide)⟩

/-- Claim C8: when the id attribute is unset on the variant, both the wait
step and the logging step fail immediately with an AttributeError, with no
effects at all — in particular wait consumes nothing from the subscription
(the stream is returned whole) and log touches no store. -/
theorem c8_unset_id_fails_fast (msg0 : Option Message) (stream : List (Option Message)) :
    TorcExecutionTemplate.wait { id := none, message := msg0 } stream
      = ([], { id := none, message := msg0 }, stream,
         Except.error (PyExc.attributeError "The id of the task is not set.")) ∧
    TorcExecutionTemplate.log { id := none, message := msg0 }
      = ([], Except.error (PyExc.attributeError "The id of the task is not set.")) :=
  ⟨rfl, rfl⟩

/-- Claim C10: in the Texam job descriptor, the metadata name and the name
and service labels use the Texam role constant, while the single container
in the pod is named with the TIF role constant — not with the Texam job
name (witnessed concretely on the sample configuration). -/
theorem c10_texam_container_named_tif (c : CoreEnv) (id taskJson : String)
    (ttl : Option Int) :
    (TorcTexamExecution.texamJobManifest c id taskJson ttl).metadata.name
      = some (c.K8s.texamPref ++ "-" ++ id) ∧
    (TorcTexamExecution.texamJobManifest c id taskJson ttl).metadata.labels
      = [("service", c.K8s.texamPref),
         ("parent", c.K8s.torcPref ++ "-" ++ id),
         ("name", c.K8s.texamPref ++ "-" ++ id)] ∧
    containerNames (TorcTexamExecution.texamJobManifest c id taskJson ttl)
      = [c.K8s.tifPref] ∧
    containerNames (TorcTexamExecution.texamJobManifest sampleEnv "task-1" "tjson" none)
      ≠ [sampleEnv.K8s.texamPref ++ "-" ++ "task-1"] :=
  ⟨rfl, rfl, rfl, by decide⟩

/-- Claim C3: the execute template runs exactly start_job, wait, log in that
order; if start_job raises, neither wait nor log runs (the output is
start_job's alone); if wait raises (unset id), log does not run; on success
the effect trace is the concatenation of the three steps' traces in order. -/
theorem c3_strict_sequencing (st : TorcState)
    (startJobStep : TorcState → List Effect × TorcState × Except PyExc Unit)
    (stream : List (Option Message)) :
    (∀ e1 st1 ex, startJobStep st = (e1, st1, Except.error ex) →
      TorcExecutionTemplate.execute st startJobStep stream = (e1, st1, Except.error ex)) ∧
    (∀ e1 st1, startJobStep st = (e1, st1, Except.ok ()) → st1.id = none →
      TorcExecutionTemplate.execute st startJobStep stream
        = (e1, st1, Except.error (PyExc.attributeError "The id of the task is not set."))) ∧
    (∀ e1 st1 i, startJobStep st = (e1, st1, Except.ok ()) → st1.id = some i →
      TorcExecutionTemplate.execute st startJobStep stream
        = (e1 ++ (TorcExecutionTemplate.wait st1 stream).1
             ++ (TorcExecutionTemplate.log (TorcExecutionTemplate.wait st1 stream).2.1).1,
           (TorcExecutionTemplate.wait st1 stream).2.1,
           (TorcExecutionTemplate.log (TorcExecutionTemplate.wait st1 stream).2.1).2)) := by
  refine ⟨?_, ?_, ?_⟩
  · intro e1 st1 ex h
    simp [TorcExecutionTemplate.execute, h]
  · intro e1 st1 h hid
    simp [TorcExecutionTemplate.execute, h, TorcExecutionTemplate.wait, hid]
  · intro e1 st1 i h hid
    simp [TorcExecutionTemplate.execute, h, TorcExecutionTemplate.wait, hid]

theorem c3_witness :
    TorcExecutionTemplate.execute { id := some "task-1", message := none }
        sampleFailingStep []
      = ([Effect.logDebug], { id := some "task-1", message := none },
         Except.error (PyExc.apiException "boom")) :=
  (c3_strict_sequencing { id := some "task-1", message := none } sampleFailingStep []).1
    [Effect.logDebug] { id := some "task-1", message := none }
    (PyExc.apiException "boom") rfl

/-- Claim C7: when the Kubernetes API reports an error on job submission,
both create_job and the Texam start_job log the error and re-raise the same
ApiException unchanged; the trace ends at that log entry — a single
submission attempt, no retry, and no further effect after the failure. -/
theorem c7_api_error_logged_reraised (c : CoreEnv) (apiMsg : String)
    (task_id job_name id taskJson : String) (commands args : List String)
    (metadata : V1ObjectMeta) (b : Int)
    (hb : pyIntOfString c.K8s.BACKOFF_LIMIT = some b) :
    TorcExecutionTemplate.create_job c (Except.error apiMsg) task_id job_name
        commands args metadata
      = (ttlWarnEffects c.K8s.JOB_TTL
          ++ [Effect.logDebug,
              Effect.submitJob (TorcExecutionTemplate.filerJobManifest c b
                (resolveTtl c.K8s.JOB_TTL).1 task_id job_name commands args metadata),
              Effect.logError apiMsg],
         Except.error (PyExc.apiException apiMsg)) ∧
    TorcTexamExecution.start_job c (Except.error apiMsg) id taskJson
      = (ttlWarnEffects c.K8s.JOB_TTL
          ++ [Effect.logDebug,
              Effect.submitJob (TorcTexamExecution.texamJobManifest c id taskJson
                (resolveTtl c.K8s.JOB_TTL).1),
              Effect.logError apiMsg],
         Except.error (PyExc.apiException apiMsg)) := by
  constructor
  · simp [TorcExecutionTemplate.create_job, hb]
  · rfl

theorem c7_witness :
    (TorcExecutionTemplate.create_job sampleEnv (Except.error "boom") "task-1" "job-1"
        [] [] { name := some "job-1" }).2
      = Except.error (PyExc.apiException "boom") := by
  rw [(c7_api_error_logged_reraised sampleEnv "boom" "task-1" "job-1" "task-1" "tjson"
        [] [] { name := some "job-1" } 3 (by decide)).1]

/-- Claim C4 counterexample: the empty string is not parseable as an
integer, yet create_job and start_job configured with JOB_TTL set to the
empty string emit no warning at all (the claim asserts a warning is emitted
for every unparseable value, the empty string included). -/
theorem c4_counterexample :
    pyIntOfString "" = none ∧
    hasWarning (TorcExecutionTemplate.create_job emptyTtlEnv (Except.ok ()) "task-1"
        "job-1" [] [] { name := some "job-1" }).1 = false ∧
    hasWarning (TorcTexamExecution.start_job emptyTtlEnv (Except.ok ()) "task-1"
        "tjson").1 = false ∧
    (submittedJobs (TorcExecutionTemplate.create_job emptyTtlEnv (Except.ok ()) "task-1"
        "job-1" [] [] { name := some "job-1" }).1).map jobTtlField = [none] :=
  ⟨rfl, rfl, rfl, rfl⟩

/-- Claim C4 (amended): job construction never fails on a bad TTL value.
When the configured TTL is absent or the empty string, both builders emit
no warning and submit a JobSpec with no TTL; when it is non-empty but not
parseable as an integer, both emit a warning and submit a JobSpec with no
TTL; when it is non-empty and parseable, the submitted JobSpec's TTL equals
exactly that integer and no warning is emitted. -/
theorem c4_ttl_fallback_amended (c : CoreEnv) (apiRes : Except String Unit)
    (task_id job_name id taskJson : String) (commands args : List String)
    (metadata : V1ObjectMeta) (b : Int)
    (hb : pyIntOfString c.K8s.BACKOFF_LIMIT = some b) :
    ((c.K8s.JOB_TTL = none ∨ c.K8s.JOB_TTL = some "") →
      hasWarning (TorcExecutionTemplate.create_job c apiRes task_id job_name
          commands args metadata).1 = false ∧
      hasWarning (TorcTexamExecution.start_job c apiRes id taskJson).1 = false ∧
      (submittedJobs (TorcExecutionTemplate.create_job c apiRes task_id job_name
          commands args metadata).1).map jobTtlField = [none] ∧
      (submittedJobs (TorcTexamExecution.start_job c apiRes id taskJson).1).map
          jobTtlField = [none]) ∧
    (∀ s : String, c.K8s.JOB_TTL = some s → s ≠ "" → pyIntOfString s = none →
      hasWarning (TorcExecutionTemplate.create_job c apiRes task_id job_name
          commands args metadata).1 = true ∧
      hasWarning (TorcTexamExecution.start_job c apiRes id taskJson).1 = true ∧
      (submittedJobs (TorcExecutionTemplate.create_job c apiRes task_id job_name
          commands args metadata).1).map jobTtlField = [none] ∧
      (submittedJobs (TorcTexamExecution.start_job c apiRes id taskJson).1).map
          jobTtlField = [none]) ∧
    (∀ (s : String) (n : Int), c.K8s.JOB_TTL = some s → s ≠ "" →
        pyIntOfString s = some n →
      hasWarning (TorcExecutionTemplate.create_job c apiRes task_id job_name
          commands args metadata).1 = false ∧
      hasWarning (TorcTexamExecution.start_job c apiRes id taskJson).1 = false ∧
      (submittedJobs (TorcExecutionTemplate.create_job c apiRes task_id job_name
          commands args metadata).1).map jobTtlField = [some n] ∧
      (submittedJobs (TorcTexamExecution.start_job c apiRes id taskJson).1).map
          jobTtlField = [some n]) := by
  refine ⟨?_, ?_, ?_⟩
  · rintro (h | h) <;>
      cases apiRes <;>
        simp [TorcExecutionTemplate.create_job, TorcTexamExecution.start_job, hb, h,
          resolveTtl, ttlWarnEffects, hasWarning, submittedJobs, isWarningEffect,
          submitted, jobTtlField, TorcExecutionTemplate.filerJobManifest,
          TorcTexamExecution.texamJobManifest]
  · intro s hs hne hp
    cases apiRes <;>
      simp [TorcExecutionTemplate.create_job, TorcTexamExecution.start_job, hb, hs,
        hne, hp, resolveTtl, ttlWarnEffects, hasWarning, submittedJobs,
        isWarningEffect, submitted, jobTtlField,
        TorcExecutionTemplate.filerJobManifest, TorcTexamExecution.texamJobManifest]
  · intro s n hs hne hp
    cases apiRes <;>
      simp [TorcExecutionTemplate.create_job, TorcTexamExecution.start_job, hb, hs,
        hne, hp, resolveTtl, ttlWarnEffects, hasWarning, submittedJobs,
        isWarningEffect, submitted, jobTtlField,
        TorcExecutionTemplate.filerJobManifest, TorcTexamExecution.texamJobManifest]

theorem c4_witness :
    hasWarning (TorcExecutionTemplate.create_job badTtlEnv (Except.ok ()) "task-1"
        "job-1" [] [] { name := some "job-1" }).1 = true :=
  ((c4_ttl_fallback_amended badTtlEnv (Except.ok ()) "task-1" "job-1" "task-1" "tjson"
      [] [] { name := some "job-1" } 3 (by decide)).2.1 "abc" rfl (by decide) rfl).1

/-- Claim C9 counterexample: the job the Texam start_job submits carries no
retry/backoff limit at all — its V1JobSpec leaves backoff_limit unset —
although the claim asserts that every JobSpec submitted by this core
carries a backoff limit taken from configuration. -/
theorem c9_counterexample :
    (submittedJobs (TorcTexamExecution.start_job sampleEnv (Except.ok ()) "task-1"
        "tjson").1).map jobBackoffRestart = [(none, some "Never")] :=
  rfl

/-- Claim C9 (amended): the filer jobs submitted by create_job carry both a
restart policy and a backoff limit taken from configuration; the
task-execution job submitted by start_job carries the configured restart
policy but no backoff limit (the field stays unset). -/
theorem c9_restart_backoff_amended (c : CoreEnv) (apiRes : Except String Unit)
    (task_id job_name id taskJson : String) (commands args : List String)
    (metadata : V1ObjectMeta) (b : Int)
    (hb : pyIntOfString c.K8s.BACKOFF_LIMIT = some b) :
    (submittedJobs (TorcExecutionTemplate.create_job c apiRes task_id job_name
        commands args metadata).1).map jobBackoffRestart
      = [(some b, some c.K8s.RESTART_POLICY)] ∧
    (submittedJobs (TorcTexamExecution.start_job c apiRes id taskJson).1).map
        jobBackoffRestart
      = [(none, some c.K8s.RESTART_POLICY)] := by
  have hw : ∀ a ∈ ttlWarnEffects c.K8s.JOB_TTL, submitted a = none := by
    unfold ttlWarnEffects
    rcases (resolveTtl c.K8s.JOB_TTL).2 with _ | t <;> simp [submitted]
  cases apiRes <;>
    constructor <;>
      simp [TorcExecutionTemplate.create_job, TorcTexamExecution.start_job, hb,
        submittedJobs, submitted, jobBackoffRestart,
        TorcExecutionTemplate.filerJobManifest, TorcTexamExecution.texamJobManifest,
        List.filterMap_append] <;>
        exact hw

theorem c9_witness :
    (submittedJobs (TorcExecutionTemplate.create_job sampleEnv (Except.ok ()) "task-1"
        "job-1" [] [] { name := some "job-1" }).1).map jobBackoffRestart
      = [(some 3, some "Never")] := by
  rw [(c9_restart_backoff_amended sampleEnv (Except.ok ()) "task-1" "job-1" "task-1"
        "tjson" [] [] { name := some "job-1" } 3 (by decide)).1]
  rfl
